import Mathlib

/-!
Shallow embedding of `src/main.c` from OpenBroadcastSystems/fffuzz: a
demux-and-decode fuzzing harness over an external multimedia library.
The library calls (avcodec_decode_video2 / _audio4 / _subtitle2,
av_image_alloc, avformat_open_input, ...) are external collaborators;
each call's outcome is supplied as an oracle value, and the harness's
own control flow (dispatch by media type, geometry validation, clamping,
packet pump, flush loop, setup error paths in `main`) is embedded
faithfully as pure Lean functions.
-/

/-- Media type of the selected decoder context (`dec_ctx->codec_type`).
`other` stands for any value that is none of video/audio/subtitle. -/
inductive MediaType where
  | video
  | audio
  | subtitle
  | other
deriving DecidableEq, Repr

/-- The fields of a decoded `AVFrame` that `decode_packet` inspects:
geometry/format for video, sample count and the library-reported
bytes-per-sample for audio. -/
structure Frame where
  width : Int
  height : Int
  format : Int
  nb_samples : Nat
  bytesPerSample : Nat
deriving DecidableEq, Repr

/-- The outcome of one external decode call (the library's side of
`avcodec_decode_video2` / `avcodec_decode_audio4` /
`avcodec_decode_subtitle2`): the return value `ret` (bytes consumed, or a
negative error code), the value written through `got_frame`, the decoded
frame's fields, and — for the subtitle branch — the number of bytes the
textual rectangle dump would write. -/
structure LibDecode where
  ret : Int
  gotFrame : Bool
  frame : Frame
  subBytes : Nat
deriving DecidableEq, Repr

/-- `AV_PIX_FMT_NONE`. -/
def AV_PIX_FMT_NONE : Int := -1

/-- The process-wide static state of `main.c` (lines 39-43): `width`,
`height`, `pix_fmt`, `video_dst_data`, `video_dst_linesize`,
`video_dst_bufsize`. -/
structure GlobalState where
  width : Int
  height : Int
  pix_fmt : Int
  video_dst_bufsize : Int
  video_dst_data : List Int
  video_dst_linesize : List Int
deriving DecidableEq, Repr

/-- What one call to `decode_packet` does, as observable effects: its
return value, the value left in `*got_frame`, the updated `*frame_count`,
the number of bytes appended to the destination file by this call, and
whether `av_frame_unref(frame)` ran before returning. -/
structure DecodeOut where
  ret : Int
  got_frame : Bool
  frame_count : Nat
  bytesWritten : Nat
  frameUnreffed : Bool
deriving DecidableEq, Repr

/-- Embedding of `decode_packet` (main.c lines 45-169).  `g` is the
process-wide static state, `ct` the decoder context's codec type, `lib`
the external decode call's outcome, `fc` the incoming `*frame_count`,
`pktSize` the packet's current `size`.

Control flow mirrors the C exactly: `*got_frame = 0` on entry; each
branch returns the library error early (leaving `*got_frame` as the
library wrote it, skipping the final unref); the video branch validates
geometry against the open-time globals before writing
`video_dst_bufsize` bytes; the audio branch clamps the consumed count
with `FFMIN(ret, pkt->size)` before the `got_frame` test and writes
`nb_samples * bytes_per_sample` bytes; the subtitle branch writes the
rectangle dump; an unmatched codec type leaves `ret = -1` and
`*got_frame = 0`; the common exit unrefs the frame iff `*got_frame`. -/
def decode_packet (g : GlobalState) (ct : MediaType) (lib : LibDecode)
    (fc : Nat) (pktSize : Int) : DecodeOut :=
  match ct with
  | .video =>
    if lib.ret < 0 then
      ⟨lib.ret, lib.gotFrame, fc, 0, false⟩
    else if lib.gotFrame then
      if lib.frame.width ≠ g.width ∨ lib.frame.height ≠ g.height ∨
          lib.frame.format ≠ g.pix_fmt then
        ⟨-1, true, fc, 0, false⟩
      else
        ⟨lib.ret, true, fc + 1, g.video_dst_bufsize.toNat, true⟩
    else
      ⟨lib.ret, false, fc, 0, false⟩
  | .audio =>
    if lib.ret < 0 then
      ⟨lib.ret, lib.gotFrame, fc, 0, false⟩
    else
      let r := min lib.ret pktSize
      if lib.gotFrame then
        ⟨r, true, fc + 1, lib.frame.nb_samples * lib.frame.bytesPerSample, true⟩
      else
        ⟨r, false, fc, 0, false⟩
  | .subtitle =>
    if lib.ret < 0 then
      ⟨lib.ret, lib.gotFrame, fc, 0, false⟩
    else if lib.gotFrame then
      ⟨lib.ret, true, fc + 1, lib.subBytes, true⟩
    else
      ⟨lib.ret, false, fc, 0, false⟩
  | .other =>
    ⟨-1, false, fc, 0, false⟩

/-- One compressed packet as read by `av_read_frame`: its initial `size`
and the (finite) trace of external decode outcomes for the successive
`decode_packet` calls made on it. -/
structure Packet where
  size : Int
  calls : List LibDecode
deriving DecidableEq, Repr

/-- Cumulative effect of a run segment: final `frame_count`, bytes
appended to the destination file, and the number of `decode_packet`
calls made. -/
structure PumpOut where
  frame_count : Nat
  bytesWritten : Nat
  callsMade : Nat
deriving DecidableEq, Repr

/-- Embedding of the inner do-while of `main` (lines 341-348): call
`decode_packet`; on negative return, `break`; otherwise advance
`pkt.data` and shrink `pkt.size` by the returned count, looping while
`pkt.size > 0`.  Recursion is on the finite oracle trace: an exhausted
trace ends the (finite) run segment. -/
def consumePacket (g : GlobalState) (ct : MediaType) :
    List LibDecode → Nat → Int → PumpOut
  | [], fc, _ => ⟨fc, 0, 0⟩
  | lib :: rest, fc, size =>
    let r := decode_packet g ct lib fc size
    if r.ret < 0 then
      ⟨r.frame_count, r.bytesWritten, 1⟩
    else if size - r.ret > 0 then
      let t := consumePacket g ct rest r.frame_count (size - r.ret)
      ⟨t.frame_count, r.bytesWritten + t.bytesWritten, t.callsMade + 1⟩
    else
      ⟨r.frame_count, r.bytesWritten, 1⟩

/-- Embedding of the packet pump (`while (av_read_frame(...) >= 0)`,
lines 340-350): each packet read from the container is consumed by the
inner loop, and the outer loop unconditionally proceeds to the next
packet. -/
def pump (g : GlobalState) (ct : MediaType) :
    List Packet → Nat → PumpOut
  | [], fc => ⟨fc, 0, 0⟩
  | p :: ps, fc =>
    let r := consumePacket g ct p.calls fc p.size
    let t := pump g ct ps r.frame_count
    ⟨t.frame_count, r.bytesWritten + t.bytesWritten, r.callsMade + t.callsMade⟩

/-- Embedding of the flush phase (lines 352-357): `pkt.data = NULL;
pkt.size = 0; do { decode_packet(...) } while (got_frame);` — every call
passes the empty packet (size 0), and the loop repeats exactly while the
call reports a produced unit. -/
def flushLoop (g : GlobalState) (ct : MediaType) :
    List LibDecode → Nat → PumpOut
  | [], fc => ⟨fc, 0, 0⟩
  | lib :: rest, fc =>
    let r := decode_packet g ct lib fc 0
    if r.got_frame then
      let t := flushLoop g ct rest r.frame_count
      ⟨t.frame_count, r.bytesWritten + t.bytesWritten, t.callsMade + 1⟩
    else
      ⟨r.frame_count, r.bytesWritten, 1⟩

/-- Whether a flush call on this oracle outcome reports a produced
unit (the `got_frame` out-value of `decode_packet` on the empty
packet; it does not depend on the running frame count). -/
def producedOnEmpty (g : GlobalState) (ct : MediaType) (lib : LibDecode) : Bool :=
  (decode_packet g ct lib 0 0).got_frame

/-- The globals as assigned at the top of each fuzz-loop pass
(main.c lines 255-261): `width = 0; height = 0;
pix_fmt = AV_PIX_FMT_NONE; video_dst_bufsize = 0;` and the two
`memset`s zeroing the four data pointers and the four line sizes. -/
def resetGlobals : GlobalState :=
  ⟨0, 0, AV_PIX_FMT_NONE, 0, List.replicate 4 0, List.replicate 4 0⟩

/-- Outcomes of the external setup calls that one fuzz iteration of
`main` makes, plus the decode-time oracle traces.  `argc` is the
argument count; `format`/`codec` are non-null iff `argc = 5`. -/
structure Env where
  argc : Nat
  codecOptOk : Bool
  formatOptOk : Bool
  findFormatOk : Bool
  openInputOk : Bool
  findStreamInfoOk : Bool
  openCodecOk : Bool
  fopenOk : Bool
  codecType : MediaType
  decWidth : Int
  decHeight : Int
  decPixFmt : Int
  allocBufsize : Int
  allocData : List Int
  allocLinesize : List Int
  frameAllocOk : Bool
  packets : List Packet
  flushTrace : List LibDecode
deriving DecidableEq, Repr

/-- Observable outcome of `main`: the exit status (`return ret`),
whether the usage text was printed, whether opening the input
container resp. the destination file was attempted, the globals right
after the iteration-start reset, the final frame count, the total
bytes appended to the destination file, and the number of
`decode_packet` calls the flush phase made. -/
structure MainOut where
  ret : Int
  usagePrinted : Bool
  inputOpenAttempted : Bool
  dstOpenAttempted : Bool
  gAfterReset : GlobalState
  frame_count : Nat
  bytesWritten : Nat
  flushCallCount : Nat
deriving DecidableEq, Repr

/-- A fatal setup failure exit (`ret = 1; goto end;`) taken before /
after the two file-open attempts. -/
def setupFail (inAttempt dstAttempt : Bool) : MainOut :=
  ⟨1, false, inAttempt, dstAttempt, resetGlobals, 0, 0, 0⟩

/-- Embedding of one pass of the fuzz loop in `main` (lines 245-370),
after the argument check: reset the globals, set the two whitelist
options, optionally look up the forced input format (argc = 5), open
the input, probe stream info (failure is non-fatal), open a codec
context, open the destination file, for video capture
width/height/pix_fmt from the decoder context and allocate the packed
destination image, allocate the frame, then run the packet pump and
one flush phase.  Every failing setup step sets `ret = 1` and jumps to
cleanup; decode-time errors do not touch `ret`.  `prev` is the globals
left by a previous pass; the reset overwrites them before any
decoding. -/
def mainIteration (_prev : GlobalState) (e : Env) : MainOut :=
  let g := resetGlobals
  if !e.codecOptOk then setupFail false false
  else if !e.formatOptOk then setupFail false false
  else if e.argc == 5 && !e.findFormatOk then setupFail false false
  else if !e.openInputOk then setupFail true false
  else if !e.openCodecOk then setupFail true false
  else if !e.fopenOk then setupFail true true
  else
    let g2 := if e.codecType = .video then
        { g with width := e.decWidth, height := e.decHeight,
                 pix_fmt := e.decPixFmt, video_dst_bufsize := e.allocBufsize,
                 video_dst_data := e.allocData,
                 video_dst_linesize := e.allocLinesize }
      else g
    if e.codecType = .video ∧ e.allocBufsize < 0 then setupFail true true
    else if !e.frameAllocOk then setupFail true true
    else
      let p := pump g2 e.codecType e.packets 0
      let f := flushLoop g2 e.codecType e.flushTrace p.frame_count
      ⟨0, false, true, true, g, f.frame_count,
        p.bytesWritten + f.bytesWritten, f.callsMade⟩

/-- Embedding of `main` from entry (lines 213-234 plus one fuzz pass):
if `argc != 5 && argc != 3`, print the usage text and `exit(1)` before
any other work; otherwise run the pipeline. -/
def mainEntry (prev : GlobalState) (e : Env) : MainOut :=
  if e.argc ≠ 5 ∧ e.argc ≠ 3 then
    ⟨1, true, false, false, resetGlobals, 0, 0, 0⟩
  else
    mainIteration prev e

/-- The setup conditions under which a fuzz pass fails fatally
(each sets `ret = 1` in the C). -/
def setupFails (e : Env) : Bool :=
  !e.codecOptOk || !e.formatOptOk || (e.argc == 5 && !e.findFormatOk) ||
    !e.openInputOk || !e.openCodecOk || !e.fopenOk ||
    (e.codecType == .video && e.allocBufsize < 0) || !e.frameAllocOk

/-- A baseline environment in which every setup step succeeds, the
selected stream is video with open-time geometry 2x2 and pixel format 0,
the packed destination image is 4 bytes, and the container yields no
packets. -/
def envOk : Env :=
  { argc := 3, codecOptOk := true, formatOptOk := true, findFormatOk := true,
    openInputOk := true, findStreamInfoOk := true, openCodecOk := true,
    fopenOk := true, codecType := .video, decWidth := 2, decHeight := 2,
    decPixFmt := 0, allocBufsize := 4, allocData := [1, 0, 0, 0],
    allocLinesize := [2, 0, 0, 0], frameAllocOk := true, packets := [],
    flushTrace := [] }

/-- The globals `main` holds while pumping packets under `envOk`: the
reset state overwritten with the video open-time values (main.c lines
312-324). -/
def gVideoOk : GlobalState :=
  ⟨2, 2, 0, 4, [1, 0, 0, 0], [2, 0, 0, 0]⟩

/-- A library outcome producing a frame whose geometry (3x2) disagrees
with `gVideoOk`'s open-time 2x2. -/
def libMismatch : LibDecode := ⟨0, true, ⟨3, 2, 0, 0, 0⟩, 0⟩

/-- A library outcome producing a frame matching `gVideoOk`'s open-time
geometry, consuming 2 bytes. -/
def libGood : LibDecode := ⟨2, true, ⟨2, 2, 0, 0, 0⟩, 0⟩

/-- A library outcome reporting a decode error (AVERROR, here -22)
without producing a frame. -/
def libErr : LibDecode := ⟨-22, false, ⟨0, 0, 0, 0, 0⟩, 0⟩

/-- C10: when the decoder context's codec type is none of
video/audio/subtitle, `decode_packet` leaves `ret` at its initial -1,
leaves `*got_frame` at the 0 written on entry, and performs no write,
no frame-count change, and no frame unref. -/
theorem decode_packet_other_noop (g : GlobalState) (lib : LibDecode)
    (fc : Nat) (sz : Int) :
    decode_packet g .other lib fc sz = ⟨-1, false, fc, 0, false⟩ := rfl

/-- C3: in the video branch, when the decode succeeded (nonnegative
library return) and produced a unit whose width, height, or pixel
format differs from the open-time globals, `decode_packet` returns -1
and appends no bytes for that frame (and does not count it). -/
theorem video_mismatch_no_write (g : GlobalState) (lib : LibDecode)
    (fc : Nat) (sz : Int) (hret : 0 ≤ lib.ret) (hgot : lib.gotFrame = true)
    (hmis : lib.frame.width ≠ g.width ∨ lib.frame.height ≠ g.height ∨
      lib.frame.format ≠ g.pix_fmt) :
    (decode_packet g .video lib fc sz).ret = -1 ∧
    (decode_packet g .video lib fc sz).bytesWritten = 0 ∧
    (decode_packet g .video lib fc sz).frame_count = fc := by
  simp only [decode_packet, hgot, if_neg (not_lt.mpr hret), if_true, if_pos hmis]
  simp

/-- Witness for C3 at a concrete input: a produced 3x2 frame against
open-time 2x2 geometry. -/
theorem video_mismatch_no_write_witness :
    (0 ≤ libMismatch.ret ∧ libMismatch.gotFrame = true ∧
      libMismatch.frame.width ≠ gVideoOk.width) ∧
    (decode_packet gVideoOk .video libMismatch 0 4).ret = -1 ∧
    (decode_packet gVideoOk .video libMismatch 0 4).bytesWritten = 0 ∧
    (decode_packet gVideoOk .video libMismatch 0 4).frame_count = 0 :=
  ⟨by decide,
   video_mismatch_no_write gVideoOk libMismatch 0 4 (by decide) (by decide)
     (Or.inl (by decide))⟩

/-- C4: in the audio branch, the byte count `decode_packet` returns
never exceeds the packet's size, and whenever the library reports a
nonnegative consumption it is clamped with `FFMIN(ret, pkt->size)`. -/
theorem audio_consumption_clamped (g : GlobalState) (lib : LibDecode)
    (fc : Nat) (sz : Int) (hsz : 0 ≤ sz) :
    (decode_packet g .audio lib fc sz).ret ≤ sz ∧
    (0 ≤ lib.ret → (decode_packet g .audio lib fc sz).ret = min lib.ret sz) := by
  rcases lt_or_le lib.ret 0 with hneg | hpos
  · simp only [decode_packet, if_pos hneg]
    exact ⟨le_trans hneg.le hsz, fun h => absurd h (not_le.mpr hneg)⟩
  · simp only [decode_packet, if_neg (not_lt.mpr hpos)]
    cases hg : lib.gotFrame <;>
      simp only [if_true, if_false, Bool.false_eq_true] <;>
      exact ⟨min_le_right _ _, fun _ => by simp⟩

/-- Witness for C4 at a concrete input: a decoder reporting 100 bytes
consumed from a 7-byte packet is clamped to 7. -/
theorem audio_consumption_clamped_witness :
    (0 ≤ (7 : Int) ∧ 0 ≤ (100 : Int)) ∧
    (decode_packet gVideoOk .audio ⟨100, true, ⟨0, 0, 0, 5, 2⟩, 0⟩ 0 7).ret ≤ 7 ∧
    (decode_packet gVideoOk .audio ⟨100, true, ⟨0, 0, 0, 5, 2⟩, 0⟩ 0 7).ret =
      min 100 7 :=
  ⟨by decide,
   (audio_consumption_clamped gVideoOk ⟨100, true, ⟨0, 0, 0, 5, 2⟩, 0⟩ 0 7
      (by decide)).1,
   (audio_consumption_clamped gVideoOk ⟨100, true, ⟨0, 0, 0, 5, 2⟩, 0⟩ 0 7
      (by decide)).2 (by decide)⟩

/-- Counterexample to C8 as stated: on a video geometry mismatch the
unit-produced flag is set on return, yet `decode_packet` returns at the
mismatch check (main.c line 71), before the `av_frame_unref` at line
166 — the frame buffer is not released. -/
theorem frame_unref_counterexample :
    (decode_packet gVideoOk .video libMismatch 0 4).got_frame = true ∧
    (decode_packet gVideoOk .video libMismatch 0 4).frameUnreffed = false := by
  decide

/-- C8 amended: whenever a call to `decode_packet` reports a produced
unit and does not return early with an error (nonnegative return), the
frame buffer is unreferenced before the call returns; the early error
returns — a failed decode call, or a video geometry mismatch — skip the
unref even when the unit-produced flag is set. -/
theorem got_frame_success_unrefs (g : GlobalState) (ct : MediaType)
    (lib : LibDecode) (fc : Nat) (sz : Int)
    (hgot : (decode_packet g ct lib fc sz).got_frame = true)
    (hret : 0 ≤ (decode_packet g ct lib fc sz).ret) :
    (decode_packet g ct lib fc sz).frameUnreffed = true := by
  cases ct with
  | video =>
    simp only [decode_packet] at *
    split_ifs at * <;> simp_all <;> omega
  | audio =>
    simp only [decode_packet] at *
    split_ifs at * <;> simp_all <;> omega
  | subtitle =>
    simp only [decode_packet] at *
    split_ifs at * <;> simp_all <;> omega
  | other =>
    simp only [decode_packet] at hgot
    exact absurd hgot (by simp)

/-- Witness for the amended C8 at a concrete input: a successful
video decode with matching geometry unrefs the frame. -/
theorem got_frame_success_unrefs_witness :
    ((decode_packet gVideoOk .video libGood 0 4).got_frame = true ∧
      0 ≤ (decode_packet gVideoOk .video libGood 0 4).ret) ∧
    (decode_packet gVideoOk .video libGood 0 4).frameUnreffed = true :=
  ⟨by decide,
   got_frame_success_unrefs gVideoOk .video libGood 0 4 (by decide) (by decide)⟩

/-- Counterexample to C1 as stated: the first packet's first decode call
fails, yet the pump still reads and processes the subsequent packet —
the run over both packets decodes one frame (from the second packet),
while the run over the first packet alone decodes none. -/
theorem pump_error_counterexample :
    (decode_packet gVideoOk .video libErr 0 4).ret < 0 ∧
    (pump gVideoOk .video [⟨4, [libErr]⟩, ⟨2, [libGood]⟩] 0).frame_count = 1 ∧
    (pump gVideoOk .video [⟨4, [libErr]⟩] 0).frame_count = 0 := by
  decide

/-- C1 amended: when `decode_packet` reports a decode error on a call,
the inner loop makes no further calls on that packet's remaining bytes
(exactly one call is made, and the outcome is independent of any later
oracle entries for that packet), and the pump proceeds to read and
process the subsequent packets of the container unchanged. -/
theorem pump_error_stops_packet_not_run (g : GlobalState) (ct : MediaType)
    (lib : LibDecode) (rest : List LibDecode) (fc : Nat) (size : Int)
    (ps : List Packet)
    (herr : (decode_packet g ct lib fc size).ret < 0) :
    consumePacket g ct (lib :: rest) fc size =
      ⟨(decode_packet g ct lib fc size).frame_count,
        (decode_packet g ct lib fc size).bytesWritten, 1⟩ ∧
    pump g ct (⟨size, lib :: rest⟩ :: ps) fc =
      ⟨(pump g ct ps (decode_packet g ct lib fc size).frame_count).frame_count,
        (decode_packet g ct lib fc size).bytesWritten +
          (pump g ct ps (decode_packet g ct lib fc size).frame_count).bytesWritten,
        1 + (pump g ct ps (decode_packet g ct lib fc size).frame_count).callsMade⟩ := by
  have h1 : consumePacket g ct (lib :: rest) fc size =
      ⟨(decode_packet g ct lib fc size).frame_count,
        (decode_packet g ct lib fc size).bytesWritten, 1⟩ := by
    simp only [consumePacket, if_pos herr]
  refine ⟨h1, ?_⟩
  simp only [pump, h1]

/-- Witness for the amended C1 at a concrete input: an erroring first
call on a two-entry packet trace, followed by one further packet. -/
theorem pump_error_stops_packet_not_run_witness :
    (decode_packet gVideoOk .video libErr 0 4).ret < 0 ∧
    consumePacket gVideoOk .video [libErr, libGood] 0 4 = ⟨0, 0, 1⟩ ∧
    pump gVideoOk .video [⟨4, [libErr, libGood]⟩, ⟨2, [libGood]⟩] 0 =
      ⟨1, 4, 2⟩ :=
  ⟨by decide,
   by
    have h := pump_error_stops_packet_not_run gVideoOk .video libErr [libGood]
      0 4 [⟨2, [libGood]⟩] (by decide)
    exact ⟨h.1, by rw [h.2]; decide⟩⟩

/-- C6: with an argument count other than 3 or 5, `main` prints the
usage text and exits with status 1 having attempted no file open and
written no bytes; with exactly 3 or 5 arguments it proceeds past the
argument check into the pipeline, and the usage text is never printed
there. -/
theorem argc_check (prev : GlobalState) (e : Env) :
    (e.argc ≠ 5 ∧ e.argc ≠ 3 →
      mainEntry prev e = ⟨1, true, false, false, resetGlobals, 0, 0, 0⟩) ∧
    (e.argc = 5 ∨ e.argc = 3 →
      mainEntry prev e = mainIteration prev e ∧
        (mainEntry prev e).usagePrinted = false) := by
  constructor
  · intro h
    simp only [mainEntry, if_pos h]
  · intro h
    have hn : ¬(e.argc ≠ 5 ∧ e.argc ≠ 3) := by
      rcases h with h | h <;> simp [h]
    have he : mainEntry prev e = mainIteration prev e := by
      simp only [mainEntry, if_neg hn]
    refine ⟨he, ?_⟩
    rw [he]
    simp only [mainIteration, setupFail]
    split_ifs <;> rfl

/-- Witness for C6 at concrete inputs: 4 arguments abort with usage and
no file activity; 3 arguments proceed into the pipeline. -/
theorem argc_check_witness :
    (({ envOk with argc := 4 } : Env).argc ≠ 5 ∧
        ({ envOk with argc := 4 } : Env).argc ≠ 3) ∧
    mainEntry resetGlobals { envOk with argc := 4 } =
      ⟨1, true, false, false, resetGlobals, 0, 0, 0⟩ ∧
    (envOk.argc = 5 ∨ envOk.argc = 3) ∧
    mainEntry resetGlobals envOk = mainIteration resetGlobals envOk :=
  ⟨by decide,
   (argc_check resetGlobals { envOk with argc := 4 }).1 (by decide),
   by decide,
   ((argc_check resetGlobals envOk).2 (by decide)).1⟩

/-- Whether the argument count aborts `main` with the usage text
(`argc != 5 && argc != 3`, main.c line 221). -/
def badArgc (e : Env) : Bool :=
  e.argc != 5 && e.argc != 3

/-- Counterexample to C2 as stated: in a run where every setup step
succeeds and the only failure is a decoded video frame whose geometry
disagrees with the open-time values (the decode call returns -1 on the
produced 3x2 frame against open-time 2x2), the process exit status is
0, not 1 — decode-time errors never set `ret` in `main`. -/
theorem exit_status_counterexample :
    libMismatch.gotFrame = true ∧
    libMismatch.frame.width ≠ gVideoOk.width ∧
    (decode_packet gVideoOk .video libMismatch 0 4).ret = -1 ∧
    (mainEntry resetGlobals
      { envOk with packets := [⟨4, [libMismatch]⟩] }).ret = 0 := by
  decide

/-- The exit status of one pipeline pass is 1 exactly on a fatal setup
failure, 0 otherwise. -/
theorem mainIteration_ret_eq (prev : GlobalState) (e : Env) :
    (mainIteration prev e).ret = if setupFails e then 1 else 0 := by
  unfold mainIteration setupFails setupFail
  cases h1 : e.codecOptOk <;> cases h2 : e.formatOptOk <;> simp_all
  cases h3 : e.argc == 5 <;> cases h4 : e.findFormatOk <;> simp_all
  all_goals cases h5 : e.openInputOk <;> cases h6 : e.openCodecOk <;>
    cases h7 : e.fopenOk <;> simp_all
  all_goals cases h8 : e.frameAllocOk <;> simp_all
  all_goals by_cases h9 : e.codecType = .video <;>
    by_cases h10 : e.allocBufsize < 0 <;> simp_all
  all_goals simp only [if_neg (not_lt.mpr h10)]

/-- C2 amended: the exit status is 1 exactly when the argument check or
a fatal setup step fails (whitelist option set failure, unknown forced
format, input open failure, no stream / decoder open failure,
destination open failure, video image allocation failure, frame
allocation failure), and 0 otherwise — in particular decode-time
errors, including a video geometry mismatch, leave the exit status 0. -/
theorem exit_status_characterization (prev : GlobalState) (e : Env) :
    (mainEntry prev e).ret = if badArgc e || setupFails e then 1 else 0 := by
  by_cases h : e.argc ≠ 5 ∧ e.argc ≠ 3
  · have hb : badArgc e = true := by simp [badArgc, h.1, h.2]
    simp [mainEntry, if_pos h, hb]
  · have hb : badArgc e = false := by
      simp only [badArgc]
      rcases not_and_or.mp h with h' | h' <;> simp_all
    simp [mainEntry, if_neg h, mainIteration_ret_eq, hb]

/-- C9: the process-wide per-iteration state — width, height, pixel
format (reset to `AV_PIX_FMT_NONE`, the empty format), destination
buffer size, destination data pointers and destination line sizes — is
reset at the top of every fuzz-loop pass before any decoding work, so
the run's outcome is independent of whatever globals a previous pass
left behind. -/
theorem iteration_state_reset (p1 p2 : GlobalState) (e : Env) :
    mainEntry p1 e = mainEntry p2 e ∧
    (mainIteration p1 e).gAfterReset = resetGlobals ∧
    resetGlobals = ⟨0, 0, AV_PIX_FMT_NONE, 0, [0, 0, 0, 0], [0, 0, 0, 0]⟩ := by
  refine ⟨rfl, ?_, by decide⟩
  unfold mainIteration setupFail
  split_ifs <;> rfl

/-- The unit-produced out-value of `decode_packet` does not depend on
the running frame count. -/
theorem decode_packet_got_frame_fc (g : GlobalState) (ct : MediaType)
    (lib : LibDecode) (fc fc' : Nat) (sz : Int) :
    (decode_packet g ct lib fc sz).got_frame =
      (decode_packet g ct lib fc' sz).got_frame := by
  cases ct <;> simp only [decode_packet] <;> split_ifs <;> rfl

/-- C7: the flush phase calls `decode_packet` on the empty packet
(size 0, by definition of `flushLoop`, mirroring `pkt.data = NULL;
pkt.size = 0`) and the number of calls it makes is one more than the
number of leading trace entries reporting a produced unit (capped by
the trace length): it continues exactly as long as a unit is produced
and stops at the first call that produces none. -/
theorem flush_phase_calls (g : GlobalState) (ct : MediaType)
    (os : List LibDecode) (fc : Nat) :
    (flushLoop g ct os fc).callsMade =
      min ((os.takeWhile (producedOnEmpty g ct)).length + 1) os.length := by
  induction os generalizing fc with
  | nil => simp [flushLoop]
  | cons o rest ih =>
    have hgot : (decode_packet g ct o fc 0).got_frame = producedOnEmpty g ct o :=
      decode_packet_got_frame_fc g ct o fc 0 0
    cases hp : producedOnEmpty g ct o with
    | true =>
      have hg : (decode_packet g ct o fc 0).got_frame = true := by rw [hgot, hp]
      simp only [flushLoop, hg, if_true, List.takeWhile_cons, hp,
        List.length_cons]
      rw [ih]
      omega
    | false =>
      have hg : (decode_packet g ct o fc 0).got_frame = false := by
        rw [hgot, hp]
      simp only [flushLoop, hg, List.takeWhile_cons, hp, List.length_cons,
        Bool.false_eq_true, if_false]
      simp

theorem decode_packet_fc_ge (g : GlobalState) (ct : MediaType)
    (lib : LibDecode) (fc : Nat) (sz : Int) :
    fc ≤ (decode_packet g ct lib fc sz).frame_count := by
  cases ct <;> simp only [decode_packet] <;> (try split_ifs) <;> simp

theorem consumePacket_fc_ge (g : GlobalState) (ct : MediaType)
    (os : List LibDecode) (fc : Nat) (sz : Int) :
    fc ≤ (consumePacket g ct os fc sz).frame_count := by
  induction os generalizing fc sz with
  | nil => simp [consumePacket]
  | cons o rest ih =>
    simp only [consumePacket]
    split_ifs
    · exact decode_packet_fc_ge g ct o fc sz
    · exact le_trans (decode_packet_fc_ge g ct o fc sz)
        (ih (decode_packet g ct o fc sz).frame_count _)
    · exact decode_packet_fc_ge g ct o fc sz

theorem decode_video_bytes (g : GlobalState) (lib : LibDecode)
    (fc : Nat) (sz : Int) :
    (decode_packet g .video lib fc sz).bytesWritten =
      ((decode_packet g .video lib fc sz).frame_count - fc) *
        g.video_dst_bufsize.toNat := by
  simp only [decode_packet]
  split_ifs <;> simp

theorem consumePacket_video_bytes (g : GlobalState)
    (os : List LibDecode) (fc : Nat) (sz : Int) :
    (consumePacket g .video os fc sz).bytesWritten =
      ((consumePacket g .video os fc sz).frame_count - fc) *
        g.video_dst_bufsize.toNat := by
  induction os generalizing fc sz with
  | nil => simp [consumePacket]
  | cons o rest ih =>
    have hd := decode_video_bytes g o fc sz
    have hm := decode_packet_fc_ge g .video o fc sz
    simp only [consumePacket]
    split_ifs
    · exact hd
    · have hm2 := consumePacket_fc_ge g .video rest
        (decode_packet g .video o fc sz).frame_count
        (sz - (decode_packet g .video o fc sz).ret)
      have hi := ih (decode_packet g .video o fc sz).frame_count
        (sz - (decode_packet g .video o fc sz).ret)
      simp only [hd, hi]
      rw [← Nat.add_mul]
      congr 1
      omega
    · exact hd

theorem pump_fc_ge (g : GlobalState) (ct : MediaType)
    (ps : List Packet) (fc : Nat) :
    fc ≤ (pump g ct ps fc).frame_count := by
  induction ps generalizing fc with
  | nil => simp [pump]
  | cons p rest ih =>
    simp only [pump]
    exact le_trans (consumePacket_fc_ge g ct p.calls fc p.size) (ih _)

theorem flushLoop_fc_ge (g : GlobalState) (ct : MediaType)
    (os : List LibDecode) (fc : Nat) :
    fc ≤ (flushLoop g ct os fc).frame_count := by
  induction os generalizing fc with
  | nil => simp [flushLoop]
  | cons o rest ih =>
    simp only [flushLoop]
    split_ifs
    · exact le_trans (decode_packet_fc_ge g ct o fc 0) (ih _)
    · exact decode_packet_fc_ge g ct o fc 0

theorem pump_video_bytes (g : GlobalState) (ps : List Packet) (fc : Nat) :
    (pump g .video ps fc).bytesWritten =
      ((pump g .video ps fc).frame_count - fc) * g.video_dst_bufsize.toNat := by
  induction ps generalizing fc with
  | nil => simp [pump]
  | cons p rest ih =>
    simp only [pump]
    have hc := consumePacket_video_bytes g p.calls fc p.size
    have hm := consumePacket_fc_ge g .video p.calls fc p.size
    have hm2 := pump_fc_ge g .video rest
      (consumePacket g .video p.calls fc p.size).frame_count
    rw [hc, ih (consumePacket g .video p.calls fc p.size).frame_count,
      ← Nat.add_mul]
    congr 1
    omega

theorem flushLoop_video_bytes (g : GlobalState)
    (os : List LibDecode) (fc : Nat) :
    (flushLoop g .video os fc).bytesWritten =
      ((flushLoop g .video os fc).frame_count - fc) *
        g.video_dst_bufsize.toNat := by
  induction os generalizing fc with
  | nil => simp [flushLoop]
  | cons o rest ih =>
    have hd := decode_video_bytes g o fc 0
    have hm := decode_packet_fc_ge g .video o fc 0
    simp only [flushLoop]
    split_ifs
    · have hm2 := flushLoop_fc_ge g .video rest
        (decode_packet g .video o fc 0).frame_count
      show (decode_packet g .video o fc 0).bytesWritten +
          (flushLoop g .video rest
            (decode_packet g .video o fc 0).frame_count).bytesWritten =
        ((flushLoop g .video rest
            (decode_packet g .video o fc 0).frame_count).frame_count - fc) *
          g.video_dst_bufsize.toNat
      rw [hd, ih (decode_packet g .video o fc 0).frame_count, ← Nat.add_mul]
      congr 1
      omega
    · exact hd

theorem run_video_bytes (g : GlobalState) (ps : List Packet)
    (os : List LibDecode) :
    (pump g .video ps 0).bytesWritten +
      (flushLoop g .video os (pump g .video ps 0).frame_count).bytesWritten =
      (flushLoop g .video os (pump g .video ps 0).frame_count).frame_count *
        g.video_dst_bufsize.toNat := by
  rw [pump_video_bytes, flushLoop_video_bytes, ← Nat.add_mul]
  have h2 := flushLoop_fc_ge g .video os (pump g .video ps 0).frame_count
  congr 1
  omega

theorem mainIteration_video_total (prev : GlobalState) (e : Env)
    (hv : e.codecType = .video) :
    (mainIteration prev e).bytesWritten =
      (mainIteration prev e).frame_count * e.allocBufsize.toNat := by
  unfold mainIteration setupFail
  cases h1 : e.codecOptOk <;> cases h2 : e.formatOptOk <;> simp_all
  cases h3 : e.argc == 5 <;> cases h4 : e.findFormatOk <;> simp_all
  all_goals cases h5 : e.openInputOk <;> cases h6 : e.openCodecOk <;>
    cases h7 : e.fopenOk <;> simp_all
  all_goals cases h8 : e.frameAllocOk <;> simp_all
  all_goals by_cases h10 : e.allocBufsize < 0 <;> simp_all
  all_goals simp only [if_neg (not_lt.mpr h10)]
  all_goals exact run_video_bytes _ e.packets e.flushTrace

/-- C5: with a video stream whose produced frames all carry the
open-time dimensions and pixel format, every produced frame appends
exactly the packed destination buffer size (`video_dst_bufsize`, the
value `av_image_alloc` returned for width x height x pix_fmt with
alignment 1 — the tightly packed frame size, row padding removed) and
bumps the frame count by one, so the destination file's total byte
length is the number of decoded frames times that packed size.  (The
total-length equation holds even without the all-frames-match premise,
since a mismatched frame is neither written nor counted.) -/
theorem video_output_packed_length (prev : GlobalState) (e : Env)
    (hv : e.codecType = .video)
    (_hmatch : ∀ p ∈ e.packets, ∀ lib ∈ p.calls, lib.gotFrame = true →
      lib.frame.width = e.decWidth ∧ lib.frame.height = e.decHeight ∧
      lib.frame.format = e.decPixFmt) :
    (∀ (g : GlobalState) (lib : LibDecode) (fc : Nat) (sz : Int),
      0 ≤ lib.ret → lib.gotFrame = true → lib.frame.width = g.width →
      lib.frame.height = g.height → lib.frame.format = g.pix_fmt →
      (decode_packet g .video lib fc sz).bytesWritten =
        g.video_dst_bufsize.toNat ∧
      (decode_packet g .video lib fc sz).frame_count = fc + 1) ∧
    (mainEntry prev e).bytesWritten =
      (mainEntry prev e).frame_count * e.allocBufsize.toNat := by
  refine ⟨?_, ?_⟩
  · intro g lib fc sz hret hgot hw hh hf
    have hnm : ¬(lib.frame.width ≠ g.width ∨ lib.frame.height ≠ g.height ∨
        lib.frame.format ≠ g.pix_fmt) := by
      push_neg
      exact ⟨hw, hh, hf⟩
    simp only [decode_packet, if_neg (not_lt.mpr hret), hgot, if_true,
      if_neg hnm]
    simp
  · unfold mainEntry
    by_cases hb : e.argc ≠ 5 ∧ e.argc ≠ 3
    · rw [if_pos hb]
      simp
    · rw [if_neg hb]
      exact mainIteration_video_total prev e hv

/-- `envOk` extended with one packet decoding one matching frame and a
flush trace producing one further matching frame. -/
def envTwoFrames : Env :=
  { envOk with packets := [⟨2, [libGood]⟩], flushTrace := [libGood] }

/-- Witness for C5 at a concrete input: one packet decoding one
matching frame plus one flushed matching frame give an 8-byte output,
two frames times the 4-byte packed frame size. -/
theorem video_output_packed_length_witness :
    (envTwoFrames.codecType = .video ∧
      (mainEntry resetGlobals envTwoFrames).frame_count = 2) ∧
    (mainEntry resetGlobals envTwoFrames).bytesWritten =
      (mainEntry resetGlobals envTwoFrames).frame_count *
        envTwoFrames.allocBufsize.toNat :=
  ⟨⟨by decide, by decide⟩,
   (video_output_packed_length resetGlobals envTwoFrames
      (by decide) (by decide)).2⟩
